import Mathlib

/-!
Verification of the tree-dimension estimation engine of `tree_project`.

The development shallowly embeds the two estimation pipelines of the
repository, `AdvancedTreeMeasurer` (src/utils/advanced_tree_measurer.py) and
`TreeDimensionCalculator` (src/utils/tree_dimension_calculator.py), together
with the GPS decoding of src/utils/geolocation.py.  Machine floats are
modelled by rationals; Python float division by zero raises
`ZeroDivisionError`, which the callers catch and turn into a `None` result, so
the pipeline embeddings return `none` exactly when the selected scale factor
is zero.  Outputs of the OpenCV cascade detectors and of the contour
extraction (sizes of detected boxes) are taken as inputs of the embedded
functions, as are EXIF parse outcomes; the image decoding, drawing and file
side effects are outside the model.
-/

namespace TreeProject

/-- Reference object types known to the detectors
(advanced_tree_measurer.py lines 23-28, tree_dimension_calculator.py lines 89-119). -/
inductive RefType
  | car
  | person
  | bicycle
  | bench
  deriving DecidableEq, Repr

/-- Real-world height in meters per reference type
(advanced_tree_measurer.py lines 23-28: car 1.5, person 1.7, bicycle 1.1, bench 0.9). -/
def realHeight : RefType → ℚ
  | .car => 1.5
  | .person => 1.7
  | .bicycle => 1.1
  | .bench => 0.9

/-- Real-world width in meters per reference type
(advanced_tree_measurer.py lines 23-28: car 1.8, person 0.5, bicycle 0.6, bench 1.5). -/
def realWidth : RefType → ℚ
  | .car => 1.8
  | .person => 0.5
  | .bicycle => 0.6
  | .bench => 1.5

/-- Printable name of a reference type, as interpolated into the method string. -/
def refTypeName : RefType → String
  | .car => "car"
  | .person => "person"
  | .bicycle => "bicycle"
  | .bench => "bench"

/-- A detected reference object: its type and detected pixel box size.
The real-world sizes are the fixed per-type constants above. -/
structure RefObject where
  type : RefType
  width_px : ℚ
  height_px : ℚ
  deriving DecidableEq, Repr

/-- Raw GPS EXIF sub-record (`GPSInfo`): tags 1/2 are latitude reference and
value, 3/4 longitude reference and value, 6 altitude.  Coordinate values are
(degrees, minutes, seconds) triples. -/
structure GPSInfo where
  latRef : Option String
  lat : Option (ℚ × ℚ × ℚ)
  lonRef : Option String
  lon : Option (ℚ × ℚ × ℚ)
  alt : Option ℚ
  deriving DecidableEq, Repr

/-- Decoded GPS record produced by `AdvancedTreeMeasurer._extract_gps_info`
(advanced_tree_measurer.py lines 80-88). -/
structure GPSCoords where
  latitude : Option ℚ
  longitude : Option ℚ
  altitude : Option ℚ
  deriving DecidableEq, Repr

/-- `AdvancedTreeMeasurer._convert_to_degrees` (advanced_tree_measurer.py
lines 90-95): `None`/empty values yield `None`, otherwise `d + m/60 + s/3600`.
No hemisphere handling takes place here. -/
def adv_convert_to_degrees : Option (ℚ × ℚ × ℚ) → Option ℚ
  | none => none
  | some (d, m, s) => some (d + m / 60 + s / 3600)

/-- `AdvancedTreeMeasurer._extract_gps_info` (advanced_tree_measurer.py lines
80-88): packs the converted latitude/longitude and raw altitude into a record.
The `except` branch (returning `None`) is only reachable for malformed tuple
shapes, which the typed model excludes, so the embedding always returns
`some`.  No negation from the hemisphere references is performed. -/
def adv_extract_gps_info (g : GPSInfo) : Option GPSCoords :=
  some { latitude := adv_convert_to_degrees g.lat
         longitude := adv_convert_to_degrees g.lon
         altitude := g.alt }

/-- `convert_to_degrees` of geolocation.py (lines 30-41): same arithmetic; a
`None` input raises inside the `try` and is converted to `None`. -/
def geo_convert_to_degrees : Option (ℚ × ℚ × ℚ) → Option ℚ
  | none => none
  | some (d, m, s) => some (d + m / 60 + s / 3600)

/-- `get_gps_coordinates` of geolocation.py (lines 43-88): reads tags 1-4,
converts both coordinates and negates on a South / West hemisphere
reference.  Any missing piece yields `(None, None)`. -/
def geo_get_gps_coordinates (g : Option GPSInfo) : Option ℚ × Option ℚ :=
  match g with
  | none => (none, none)
  | some gi =>
    match gi.lat, gi.lon with
    | some latv, some lonv =>
      match geo_convert_to_degrees (some latv), geo_convert_to_degrees (some lonv) with
      | some latd, some lond =>
          (some (if gi.latRef = some "S" then -latd else latd),
           some (if gi.lonRef = some "W" then -lond else lond))
      | _, _ => (none, none)
    | _, _ => (none, none)

/-- Raw EXIF attributes relevant to the pipelines, as read inside the `try`
block of `AdvancedTreeMeasurer.get_metadata` (lines 57-75).  `SensorWidth` is
not among PIL's EXIF tag names, so the extractor can never produce it; the
estimator's `metadata.get('SensorWidth', ...)` is still modelled faithfully
below. -/
structure RawExif where
  focalLength : Option ℚ
  orientation : Option ℤ
  gpsInfo : Option GPSInfo
  deriving DecidableEq, Repr

/-- Metadata mapping produced by `AdvancedTreeMeasurer.get_metadata`:
the named attributes plus the enriched `GPS` entry (present exactly when
`GPSInfo` was present, with possibly-`None` value). -/
structure AdvMetadata where
  focalLength : Option ℚ
  sensorWidth : Option ℚ
  orientation : Option ℤ
  gpsInfo : Option GPSInfo
  gps : Option (Option GPSCoords)
  deriving DecidableEq, Repr

/-- The empty metadata mapping `{}`. -/
def emptyAdvMetadata : AdvMetadata :=
  { focalLength := none, sensorWidth := none, orientation := none
    gpsInfo := none, gps := none }

/-- `AdvancedTreeMeasurer.get_metadata` (advanced_tree_measurer.py lines
57-78).  The argument abstracts the outcome of opening the image and reading
its EXIF block: `none` models any exception raised inside the `try` (the
`except` clause logs a warning and returns `{}`), `some raw` the parsed tag
mapping, which is then enriched with the decoded `GPS` entry. -/
def adv_get_metadata : Option RawExif → AdvMetadata
  | none => emptyAdvMetadata
  | some raw =>
      { focalLength := raw.focalLength
        sensorWidth := none
        orientation := raw.orientation
        gpsInfo := raw.gpsInfo
        gps := raw.gpsInfo.map adv_extract_gps_info }

/-- Metadata mapping used by `TreeDimensionCalculator`
(tree_dimension_calculator.py). -/
structure TDCMetadata where
  focalLength : Option ℚ
  focalPlaneResolutionUnit : Option ℚ
  focalPlaneXResolution : Option ℚ
  orientation : Option ℤ
  deriving DecidableEq, Repr

/-- The empty calculator metadata mapping `{}`. -/
def emptyTDCMetadata : TDCMetadata :=
  { focalLength := none, focalPlaneResolutionUnit := none
    focalPlaneXResolution := none, orientation := none }

/-- `TreeDimensionCalculator.get_image_metadata` (tree_dimension_calculator.py
lines 27-41): an outer `none` models an exception inside the `try` (caught,
returning `{}`), `some none` models `_getexif()` returning nothing (the
`if exif_data:` test fails and `{}` is returned), `some (some raw)` a
successful parse. -/
def tdc_get_image_metadata : Option (Option TDCMetadata) → TDCMetadata
  | none => emptyTDCMetadata
  | some none => emptyTDCMetadata
  | some (some raw) => raw

/-- One entry of the `methods` candidate list of
`AdvancedTreeMeasurer.calculate_pixels_per_meter` (lines 102-173). -/
structure ScaleMethod where
  px_per_m : ℚ
  method : String
  confidence : ℚ
  deriving DecidableEq, Repr

/-- Candidate built from one detected reference object
(advanced_tree_measurer.py lines 106-115): the pixels-per-meter implied by
height and width are averaged, confidence 0.9 for car/person, else 0.7. -/
def refMethodEntry (o : RefObject) : ScaleMethod :=
  { px_per_m := (o.height_px / realHeight o.type + o.width_px / realWidth o.type) / 2
    method := "Reference (" ++ refTypeName o.type ++ ")"
    confidence := if o.type = .car ∨ o.type = .person then 0.9 else 0.7 }

/-- Camera-geometry candidates (advanced_tree_measurer.py lines 117-146).
`bbox` is the `(w, h)` of the tree contour's bounding rectangle, `none` when
`tree_contour is None`.  The guard models Python truthiness of
`metadata.get('FocalLength')` (absent or `0.0` are falsy).  The second
distance approach (lines 134-137) is `pass`, so `distance_estimates` holds at
most one element and the `0.8` confidence branch is dead code. -/
def adv_camera_geometry_methods (imgW : ℚ) (bbox : Option (ℚ × ℚ))
    (m : AdvMetadata) : List ScaleMethod :=
  match m.focalLength with
  | none => []
  | some f =>
    if f = 0 then []
    else
      let sensor := m.sensorWidth.getD 6.17
      let focalPx := imgW * f / sensor
      let distanceEstimates : List ℚ :=
        match bbox with
        | some (w, h) => [(15 * focalPx) / ((w + h) / 2)]
        | none => []
      match distanceEstimates with
      | [] => []
      | ds =>
        let avgDistance := ds.sum / (ds.length : ℚ)
        [{ px_per_m := focalPx / avgDistance
           method := "Camera geometry"
           confidence := if ds.length > 1 then 0.8 else 0.6 }]

/-- The unconditional fallback candidate (advanced_tree_measurer.py lines
168-173): `image.shape[0] / 15.0` with confidence 0.4. -/
def fallbackEntry (imgH : ℚ) : ScaleMethod :=
  { px_per_m := imgH / 15
    method := "Fallback estimation"
    confidence := 0.4 }

/-- The full `methods` list, in the order it is built: reference-object
entries, camera geometry, fallback.  The depth-estimation branch (lines
148-166) is guarded by `if self.depth_est_model:`, and
`_load_depth_estimation_model` always returns `None` (lines 39-42), so it
contributes nothing. -/
def adv_scale_candidates (imgH imgW : ℚ) (bbox : Option (ℚ × ℚ))
    (refs : List RefObject) (m : AdvMetadata) : List ScaleMethod :=
  refs.map refMethodEntry ++ adv_camera_geometry_methods imgW bbox m ++ [fallbackEntry imgH]

/-- One step of Python's `max(methods, key=lambda x: x['confidence'])`:
the running best is replaced only on strictly greater key, so ties keep the
earlier entry. -/
def pickHigher (acc x : ScaleMethod) : ScaleMethod :=
  if acc.confidence < x.confidence then x else acc

/-- Python's `max` over the candidate list (first maximal element). -/
def selectBest : List ScaleMethod → Option ScaleMethod
  | [] => none
  | m :: rest => some (rest.foldl pickHigher m)

/-- `AdvancedTreeMeasurer.calculate_pixels_per_meter` (lines 97-177): build
the candidate list and return the highest-confidence entry.  The candidate
list always ends with the fallback entry, so `selectBest` never returns
`none` and the `getD` default is unreachable. -/
def adv_calculate_pixels_per_meter (imgH imgW : ℚ) (bbox : Option (ℚ × ℚ))
    (refs : List RefObject) (m : AdvMetadata) : ScaleMethod :=
  (selectBest (adv_scale_candidates imgH imgW bbox refs m)).getD (fallbackEntry imgH)

/-- The `corrections` table of `AdvancedTreeMeasurer.apply_perspective_correction`
(lines 344-351), with the `corrections.get(orientation, (1.0, 1.0))` default. -/
def adv_corrections (o : ℤ) : ℚ × ℚ :=
  if o = 1 then (1, 1)
  else if o = 3 then (0.95, 1.05)
  else if o = 6 then (1.1, 0.9)
  else if o = 8 then (1.1, 0.9)
  else (1, 1)

/-- `AdvancedTreeMeasurer.apply_perspective_correction` (lines 341-352). -/
def adv_apply_perspective_correction (height width : ℚ) (o : ℤ) : ℚ × ℚ :=
  (height * (adv_corrections o).1, width * (adv_corrections o).2)

/-- `TreeDimensionCalculator.apply_perspective_correction` (lines 121-136):
codes 6/8 scale by (1.1, 0.9), code 3 by (0.9, 1.1), anything else is
unchanged. -/
def tdc_apply_perspective_correction (height_m width_m : ℚ) (o : ℤ) : ℚ × ℚ :=
  if o = 6 ∨ o = 8 then (height_m * 1.1, width_m * 0.9)
  else if o = 3 then (height_m * 0.9, width_m * 1.1)
  else (height_m, width_m)

/-- The guarded perspective-correction step of
`AdvancedTreeMeasurer.calculate_dimensions` (lines 309-313): the correction is
invoked only when `'Orientation' in metadata`. -/
def adv_orientation_step (height width : ℚ) (o : Option ℤ) : ℚ × ℚ :=
  match o with
  | some orient => adv_apply_perspective_correction height width orient
  | none => (height, width)

/-- The guarded perspective-correction step of
`TreeDimensionCalculator.calculate_tree_dimensions` (lines 183-187). -/
def tdc_orientation_step (height width : ℚ) (o : Option ℤ) : ℚ × ℚ :=
  match o with
  | some orient => tdc_apply_perspective_correction height width orient
  | none => (height, width)

/-- `np.clip(x, lo, hi)` on scalars. -/
def clip (x lo hi : ℚ) : ℚ := min (max x lo) hi

/-- Banker's rounding to an integer, as performed by Python's `round` on
floats: round to nearest, ties to the even integer. -/
def roundHalfEven (x : ℚ) : ℤ :=
  if x - ⌊x⌋ < 1 / 2 then ⌊x⌋
  else if 1 / 2 < x - ⌊x⌋ then ⌊x⌋ + 1
  else if Even ⌊x⌋ then ⌊x⌋ else ⌊x⌋ + 1

/-- Python's `round(x, 2)`. -/
def round2 (x : ℚ) : ℚ := (roundHalfEven (x * 100) : ℚ) / 100

/-- The result record built by `AdvancedTreeMeasurer.calculate_dimensions`
(lines 319-330). -/
structure DimensionResult where
  height_m : ℚ
  width_m : ℚ
  method : String
  confidence : ℚ
  bbox : ℚ × ℚ × ℚ × ℚ
  gps : Option (Option GPSCoords)
  deriving DecidableEq, Repr

/-- `AdvancedTreeMeasurer.calculate_dimensions` (lines 277-339), from the
point where the image is decoded and the tree contour found; `(x, y, w, h)`
is the contour's bounding rectangle and `refs` the detector output.  A zero
selected scale makes `h / px_per_m` raise `ZeroDivisionError` in Python,
which the surrounding `except` turns into `None`; the embedding returns
`none` there.  Bounds are the constructor constants of lines 13-16:
height clipped to [1.0, 60.0], width to [0.3, 12.0], then rounded to two
decimals. -/
def adv_calculate_dimensions (imgH imgW x y w h : ℚ)
    (refs : List RefObject) (m : AdvMetadata) : Option DimensionResult :=
  let s := adv_calculate_pixels_per_meter imgH imgW (some (w, h)) refs m
  if s.px_per_m = 0 then none
  else
    let height_m := h / s.px_per_m
    let width_m := w / s.px_per_m
    let hw := adv_orientation_step height_m width_m m.orientation
    let hC := clip hw.1 1 60
    let wC := clip hw.2 0.3 12
    some { height_m := round2 hC
           width_m := round2 wC
           method := s.method
           confidence := round2 s.confidence
           bbox := (x, y, w, h)
           gps := m.gps }

/-- `TreeDimensionCalculator.calculate_focal_length_pixels` (lines 43-68):
with a `FocalLength` tag, sensor width is derived from the focal-plane tags
when both are present (36.0 otherwise); without it, the `except KeyError`
branch uses the smartphone defaults 4.2 mm / 6.17 mm. -/
def tdc_calculate_focal_length_pixels (m : TDCMetadata) (image_width : ℚ) : ℚ :=
  match m.focalLength with
  | some f =>
      let sensor :=
        match m.focalPlaneResolutionUnit, m.focalPlaneXResolution with
        | some u, some xr => image_width * u / xr
        | _, _ => 36
      image_width * f / sensor
  | none => image_width * 4.2 / 6.17

/-- Scale selection of `TreeDimensionCalculator.calculate_tree_dimensions`
(lines 161-178): reference object first (height ratio only), else camera
geometry when `FocalLength` is present, else the fallback `img_height / 15`.
`tan30` abstracts the irrational constant `math.tan(math.radians(30))`; `h`
is the tree bounding-box height used in the distance estimate. -/
def tdc_select_scale (imgH h focalPx tan30 : ℚ) (reference : Option RefObject)
    (m : TDCMetadata) : ℚ × String :=
  match reference with
  | some r => (r.height_px / realHeight r.type,
               "Reference object (" ++ refTypeName r.type ++ ")")
  | none =>
    match m.focalLength with
    | some _ => (focalPx / ((h * focalPx) / (h * tan30)), "Camera geometry estimation")
    | none => (imgH / 15, "Fallback estimation")

/-- `TreeDimensionCalculator.calculate_tree_dimensions` (lines 138-213), from
the point where the image is decoded and the tree contour found.  As above, a
zero scale raises in Python and yields `(None, None)`, modelled as `none`.
Sanity clamps (lines 190-191): height to [1.0, 50.0], width to [0.5, 15.0]. -/
def tdc_calculate_tree_dimensions (imgH imgW w h tan30 : ℚ)
    (reference : Option RefObject) (m : TDCMetadata) : Option (ℚ × ℚ) :=
  let focalPx := tdc_calculate_focal_length_pixels m imgW
  let s := tdc_select_scale imgH h focalPx tan30 reference m
  if s.1 = 0 then none
  else
    let height_m := h / s.1
    let width_m := w / s.1
    let hw := tdc_orientation_step height_m width_m m.orientation
    some (max 1 (min 50 hw.1), max 0.5 (min 15 hw.2))

/-- Solidity term of the contour scoring in `AdvancedTreeMeasurer.segment_tree`
(line 259): `area / hull_area if hull_area > 0 else 0`. -/
def solidity (area hull_area : ℚ) : ℚ :=
  if hull_area > 0 then area / hull_area else 0

/-- Contour score (advanced_tree_measurer.py lines 249-263), with
`aspect_ratio = w / h` inlined. -/
def contour_score (area w h hull_area : ℚ) : ℚ :=
  area * 0.5 + (1 - min |w / h - 0.3| 0.7) * 0.3 + solidity area hull_area * 0.2

/-! Helper lemmas about the selection fold, clipping and rounding. -/

lemma le_pickHigher_left (acc x : ScaleMethod) :
    acc.confidence ≤ (pickHigher acc x).confidence := by
  unfold pickHigher
  split
  · exact le_of_lt (by assumption)
  · exact le_refl _

lemma le_pickHigher_right (acc x : ScaleMethod) :
    x.confidence ≤ (pickHigher acc x).confidence := by
  unfold pickHigher
  split
  · exact le_refl _
  · exact le_of_not_lt (by assumption)

lemma selectBest_last_conf (l : List ScaleMethod) (fb : ScaleMethod) :
    fb.confidence ≤ ((selectBest (l ++ [fb])).getD fb).confidence := by
  cases l with
  | nil => simp [selectBest]
  | cons p ps =>
    show fb.confidence ≤ ((some ((ps ++ [fb]).foldl pickHigher p)).getD fb).confidence
    rw [List.foldl_append]
    simpa using le_pickHigher_right (ps.foldl pickHigher p) fb

lemma clip_mem (x lo hi : ℚ) (h : lo ≤ hi) :
    lo ≤ clip x lo hi ∧ clip x lo hi ≤ hi :=
  ⟨le_min (le_max_right x lo) h, min_le_right _ _⟩

lemma roundHalfEven_ge (x : ℚ) (a : ℤ) (h : (a : ℚ) ≤ x) :
    a ≤ roundHalfEven x := by
  have hf : a ≤ ⌊x⌋ := Int.le_floor.mpr h
  unfold roundHalfEven
  split
  · exact hf
  · split
    · linarith
    · split
      · exact hf
      · linarith

lemma roundHalfEven_le (x : ℚ) (b : ℤ) (h : x ≤ (b : ℚ)) :
    roundHalfEven x ≤ b := by
  have hfb : ⌊x⌋ ≤ b := by
    have h' := Int.floor_mono h
    rwa [Int.floor_intCast] at h'
  unfold roundHalfEven
  split
  · exact hfb
  · rename_i h1
    push_neg at h1
    have hfx : (⌊x⌋ : ℚ) < x := by linarith
    have hfb' : ⌊x⌋ < b := by
      have hq : (⌊x⌋ : ℚ) < (b : ℚ) := lt_of_lt_of_le hfx h
      exact_mod_cast hq
    split
    · linarith
    · split
      · exact hfb
      · linarith

lemma roundHalfEven_intCast (n : ℤ) : roundHalfEven (n : ℚ) = n := by
  unfold roundHalfEven
  rw [Int.floor_intCast]
  norm_num

lemma round2_ofInt (n : ℤ) : round2 (n : ℚ) = n := by
  unfold round2
  rw [show ((n : ℚ) * 100) = ((n * 100 : ℤ) : ℚ) by push_cast; ring, roundHalfEven_intCast]
  push_cast
  ring

lemma round2_eq_self (x : ℚ) (n : ℤ) (hx : x = (n : ℚ)) : round2 x = x := by
  rw [hx, round2_ofInt]

lemma round2_mem_1_60 (x : ℚ) (h1 : 1 ≤ x) (h2 : x ≤ 60) :
    1 ≤ round2 x ∧ round2 x ≤ 60 := by
  have ha : ((100 : ℤ) : ℚ) ≤ x * 100 := by push_cast; linarith
  have hb : x * 100 ≤ ((6000 : ℤ) : ℚ) := by push_cast; linarith
  have g1 : ((100 : ℤ) : ℚ) ≤ (roundHalfEven (x * 100) : ℚ) :=
    Int.cast_le.mpr (roundHalfEven_ge _ _ ha)
  have g2 : ((roundHalfEven (x * 100) : ℤ) : ℚ) ≤ ((6000 : ℤ) : ℚ) :=
    Int.cast_le.mpr (roundHalfEven_le _ _ hb)
  push_cast at g1 g2
  unfold round2
  constructor
  · linarith
  · linarith

lemma round2_mem_03_12 (x : ℚ) (h1 : 0.3 ≤ x) (h2 : x ≤ 12) :
    0.3 ≤ round2 x ∧ round2 x ≤ 12 := by
  have ha : ((30 : ℤ) : ℚ) ≤ x * 100 := by push_cast; linarith
  have hb : x * 100 ≤ ((1200 : ℤ) : ℚ) := by push_cast; linarith
  have g1 : ((30 : ℤ) : ℚ) ≤ (roundHalfEven (x * 100) : ℚ) :=
    Int.cast_le.mpr (roundHalfEven_ge _ _ ha)
  have g2 : ((roundHalfEven (x * 100) : ℤ) : ℚ) ≤ ((1200 : ℤ) : ℚ) :=
    Int.cast_le.mpr (roundHalfEven_le _ _ hb)
  push_cast at g1 g2
  unfold round2
  constructor
  · rw [show (0.3 : ℚ) = 30 / 100 by norm_num]
    linarith
  · linarith

/-! Theorems settling the claims. -/

/-- C2 (amended): in `AdvancedTreeMeasurer.calculate_pixels_per_meter` the
reference-object candidate for a detected car of pixel size
`(width_px, height_px)` has pixels-per-meter `(height_px/1.5 + width_px/1.8)/2`
and confidence 0.9, while `TreeDimensionCalculator.calculate_tree_dimensions`
uses only the height ratio `height_px/1.5` for a detected car. -/
theorem c2_reference_method_formulas (wpx hpx : ℚ) :
    (refMethodEntry ⟨RefType.car, wpx, hpx⟩).px_per_m = (hpx / 1.5 + wpx / 1.8) / 2 ∧
    (refMethodEntry ⟨RefType.car, wpx, hpx⟩).confidence = 0.9 ∧
    (tdc_select_scale 1000 80 120 0.57 (some ⟨RefType.car, wpx, hpx⟩) emptyTDCMetadata).1 =
      hpx / 1.5 := by
  refine ⟨rfl, rfl, rfl⟩

/-- C2 counterexample: for a detected car with `height_px = 160`,
`width_px = 200`, `TreeDimensionCalculator` computes pixels-per-meter
`160/1.5 = 320/3`, which differs from the claimed average
`(160/1.5 + 200/1.8)/2 = 980/9`. -/
theorem c2_counterexample :
    (tdc_select_scale 1000 80 120 0.57 (some ⟨RefType.car, 200, 160⟩) emptyTDCMetadata).1 =
      320 / 3 ∧
    ¬((tdc_select_scale 1000 80 120 0.57 (some ⟨RefType.car, 200, 160⟩) emptyTDCMetadata).1 =
      ((160 : ℚ) / 1.5 + 200 / 1.8) / 2) := by
  constructor
  · norm_num [tdc_select_scale, realHeight]
  · norm_num [tdc_select_scale, realHeight]

/-- C4 (amended): `AdvancedTreeMeasurer.apply_perspective_correction` uses the
fixed factors code 1 → identity, code 3 → (×0.95, ×1.05), codes 6 and 8 →
(×1.1, ×0.9); `TreeDimensionCalculator.apply_perspective_correction` agrees on
codes 1, 6 and 8; and orientation 6 on unclamped (10, 5) gives (11.0, 4.5) in
both implementations. -/
theorem c4_perspective_factors (h w : ℚ) :
    adv_apply_perspective_correction h w 1 = (h, w) ∧
    adv_apply_perspective_correction h w 3 = (h * 0.95, w * 1.05) ∧
    adv_apply_perspective_correction h w 6 = (h * 1.1, w * 0.9) ∧
    adv_apply_perspective_correction h w 8 = (h * 1.1, w * 0.9) ∧
    tdc_apply_perspective_correction h w 1 = (h, w) ∧
    tdc_apply_perspective_correction h w 6 = (h * 1.1, w * 0.9) ∧
    tdc_apply_perspective_correction h w 8 = (h * 1.1, w * 0.9) ∧
    adv_apply_perspective_correction 10 5 6 = (11, 4.5) ∧
    tdc_apply_perspective_correction 10 5 6 = (11, 4.5) := by
  refine ⟨?_, rfl, rfl, rfl, ?_, ?_, ?_, ?_, ?_⟩
  · simp [adv_apply_perspective_correction, adv_corrections]
  · norm_num [tdc_apply_perspective_correction]
  · norm_num [tdc_apply_perspective_correction]
  · norm_num [tdc_apply_perspective_correction]
  · norm_num [adv_apply_perspective_correction, adv_corrections]
  · norm_num [tdc_apply_perspective_correction]

/-- C4 counterexample: on orientation code 3, `TreeDimensionCalculator`
multiplies height by 0.9 and width by 1.1, so (10, 5) becomes (9.0, 5.5)
rather than the claimed (10·0.95, 5·1.05) = (9.5, 5.25). -/
theorem c4_counterexample :
    tdc_apply_perspective_correction 10 5 3 = (9, 5.5) ∧
    ¬(tdc_apply_perspective_correction 10 5 3 = (10 * 0.95, 5 * 1.05)) := by
  constructor
  · norm_num [tdc_apply_perspective_correction]
  · norm_num [tdc_apply_perspective_correction]

/-- C6: when the extracted metadata carries no orientation field, the guarded
perspective-correction step of both pipelines returns its input height and
width unchanged. -/
theorem c6_no_orientation_identity (h w : ℚ) :
    adv_orientation_step h w none = (h, w) ∧
    tdc_orientation_step h w none = (h, w) :=
  ⟨rfl, rfl⟩

/-- C9: every orientation code outside {3, 6, 8} — including code 1 and any
unrecognized code — leaves height and width unchanged in both
`apply_perspective_correction` implementations. -/
theorem c9_other_orientation_identity (h w : ℚ) (o : ℤ)
    (h3 : o ≠ 3) (h6 : o ≠ 6) (h8 : o ≠ 8) :
    adv_apply_perspective_correction h w o = (h, w) ∧
    tdc_apply_perspective_correction h w o = (h, w) := by
  constructor
  · unfold adv_apply_perspective_correction adv_corrections
    rcases eq_or_ne o 1 with rfl | h1
    · norm_num
    · simp [h1, h3, h6, h8]
  · unfold tdc_apply_perspective_correction
    simp [h3, h6, h8]

/-- Witness for C9 at the unrecognized orientation code 7. -/
theorem c9_orientation_witness :
    adv_apply_perspective_correction 2 3 7 = (2, 3) ∧
    tdc_apply_perspective_correction 2 3 7 = (2, 3) :=
  c9_other_orientation_identity 2 3 7 (by decide) (by decide) (by decide)

/-- C8: divergence of the two GPS decoders on a southern-hemisphere record
(latitude 10°30′0″ S, longitude 20°0′0″ E):
`AdvancedTreeMeasurer._extract_gps_info` ignores the hemisphere references and
returns latitude +10.5, while `get_gps_coordinates` of geolocation.py negates
on the `S` reference and returns −10.5; both decode the magnitude as
`d + m/60 + s/3600`. -/
theorem c8_gps_hemisphere_divergence :
    adv_extract_gps_info
        ⟨some "S", some (10, 30, 0), some "E", some (20, 0, 0), none⟩ =
      some ⟨some 10.5, some 20, none⟩ ∧
    geo_get_gps_coordinates
        (some ⟨some "S", some (10, 30, 0), some "E", some (20, 0, 0), none⟩) =
      (some (-10.5), some 20) := by
  constructor
  · norm_num [adv_extract_gps_info, adv_convert_to_degrees]
  · norm_num [geo_get_gps_coordinates, geo_convert_to_degrees]
    decide

/-- C10: the contour-scoring solidity term is the quotient `area / hull_area`
exactly when the hull area is strictly positive (so the division is a genuine
division: multiplying back by the hull area recovers the area), it is 0 when
the hull area is not positive, and with hull area 0 the score is computed
without any solidity contribution — no division by zero ever occurs. -/
theorem c10_solidity_guard (a w h hull : ℚ) (hpos : 0 < hull) :
    solidity a hull = a / hull ∧
    solidity a hull * hull = a ∧
    solidity a 0 = 0 ∧
    contour_score a w h 0 = a * 0.5 + (1 - min |w / h - 0.3| 0.7) * 0.3 := by
  have hs : solidity a hull = a / hull := by
    unfold solidity
    exact if_pos hpos
  have hz : solidity a 0 = 0 := by
    unfold solidity
    exact if_neg (lt_irrefl 0)
  refine ⟨hs, ?_, hz, ?_⟩
  · rw [hs]
    exact div_mul_cancel₀ a (ne_of_gt hpos)
  · unfold contour_score
    rw [hz]
    ring

/-- Witness for C10 at area 6, hull area 2, bounding box 1×2. -/
theorem c10_solidity_witness :
    solidity 6 2 = 6 / 2 ∧
    solidity 6 2 * 2 = 6 ∧
    solidity 6 0 = 0 ∧
    contour_score 6 1 2 0 = 6 * 0.5 + (1 - min |1 / 2 - 0.3| 0.7) * 0.3 :=
  c10_solidity_guard 6 1 2 2 (by norm_num)

/-- C3: when no reference object is detected, metadata carries no focal length
and no depth model exists (the loaded model is always `None`), the advanced
estimator returns exactly the fallback candidate — pixels-per-meter
`imgH / 15`, method "Fallback estimation", confidence exactly 0.4 — and the
calculator's scale selection likewise returns `imgH / 15` with the fallback
method. -/
theorem c3_fallback_guarantee (imgH imgW : ℚ) (bbox : Option (ℚ × ℚ))
    (m : AdvMetadata) (tImgH th tfocal ttan : ℚ) (tm : TDCMetadata)
    (hm : m.focalLength = none) (htm : tm.focalLength = none) :
    adv_calculate_pixels_per_meter imgH imgW bbox [] m = fallbackEntry imgH ∧
    (fallbackEntry imgH).px_per_m = imgH / 15 ∧
    (fallbackEntry imgH).confidence = 0.4 ∧
    tdc_select_scale tImgH th tfocal ttan none tm = (tImgH / 15, "Fallback estimation") := by
  refine ⟨?_, rfl, rfl, ?_⟩
  · simp [adv_calculate_pixels_per_meter, adv_scale_candidates,
      adv_camera_geometry_methods, hm, selectBest]
  · simp [tdc_select_scale, htm]

/-- Witness for C3 on a 30-pixel-high frame with empty metadata. -/
theorem c3_fallback_witness :
    adv_calculate_pixels_per_meter 30 20 none [] emptyAdvMetadata = fallbackEntry 30 ∧
    (fallbackEntry 30).px_per_m = 30 / 15 ∧
    (fallbackEntry 30).confidence = 0.4 ∧
    tdc_select_scale 45 3 1 0.57 none emptyTDCMetadata = (45 / 15, "Fallback estimation") :=
  c3_fallback_guarantee 30 20 none emptyAdvMetadata 45 3 1 0.57 emptyTDCMetadata rfl rfl

/-- C7: metadata extraction is a total function of the abstract parse
outcome — both extractors map every failure outcome (an exception while
opening or parsing, or an absent EXIF block) to the empty mapping, and a
successful parse to the mapping of named attributes (with the advanced
extractor adding the decoded `GPS` entry exactly when `GPSInfo` is present);
no outcome propagates an exception. -/
theorem c7_metadata_total :
    adv_get_metadata none = emptyAdvMetadata ∧
    tdc_get_image_metadata none = emptyTDCMetadata ∧
    tdc_get_image_metadata (some none) = emptyTDCMetadata ∧
    ∀ raw : RawExif, adv_get_metadata (some raw) =
      { focalLength := raw.focalLength
        sensorWidth := none
        orientation := raw.orientation
        gpsInfo := raw.gpsInfo
        gps := raw.gpsInfo.map adv_extract_gps_info } :=
  ⟨rfl, rfl, rfl, fun _ => rfl⟩

/-- C5 counterexample: a car candidate reported with zero pixel dimensions
yields the degenerate pixels-per-meter `(0/1.5 + 0/1.8)/2 = 0`, yet the
estimator selects it (confidence 0.9 beats the fallback's 0.4) instead of
discarding it: the returned estimate has pixels-per-meter 0, not the
fallback's `1500 / 15 = 100`. -/
theorem c5_counterexample :
    (adv_calculate_pixels_per_meter 1500 1000 none
        [⟨RefType.car, 0, 0⟩] emptyAdvMetadata).px_per_m = 0 ∧
    (adv_calculate_pixels_per_meter 1500 1000 none
        [⟨RefType.car, 0, 0⟩] emptyAdvMetadata).confidence = 0.9 ∧
    (fallbackEntry 1500).px_per_m = 100 := by
  refine ⟨?_, ?_, by norm_num [fallbackEntry]⟩ <;>
    norm_num [adv_calculate_pixels_per_meter, adv_scale_candidates,
      adv_camera_geometry_methods, emptyAdvMetadata, refMethodEntry, realHeight,
      realWidth, selectBest, pickHigher, fallbackEntry]

/-- C5 (amended): the estimator performs no degeneracy filtering — every
computed candidate stays in the list and selection is purely by maximal
confidence — but the fallback candidate is always present, so the estimator
always returns an estimate whose confidence is at least 0.4. -/
theorem c5_amended_selection (imgH imgW : ℚ) (bbox : Option (ℚ × ℚ))
    (refs : List RefObject) (m : AdvMetadata) :
    fallbackEntry imgH ∈ adv_scale_candidates imgH imgW bbox refs m ∧
    0.4 ≤ (adv_calculate_pixels_per_meter imgH imgW bbox refs m).confidence := by
  constructor
  · unfold adv_scale_candidates
    simp
  · unfold adv_calculate_pixels_per_meter adv_scale_candidates
    exact selectBest_last_conf
      (refs.map refMethodEntry ++ adv_camera_geometry_methods imgW bbox m)
      (fallbackEntry imgH)

/-- C1 (amended): every successful result of either pipeline has
`1 ≤ height_m ≤ 60` and `0.3 ≤ width_m ≤ 15`; the hard clamp applied last
uses the per-implementation ranges height [1, 60] and width [0.3, 12] in the
advanced measurer (followed by rounding to two decimals) and height [1, 50],
width [0.5, 15] in the calculator, each contained in the claimed ranges. -/
theorem c1_amended_bounds
    (imgH imgW x y w h : ℚ) (refs : List RefObject) (m : AdvMetadata)
    (tImgH tImgW tw th ttan : ℚ) (tref : Option RefObject) (tm : TDCMetadata)
    (r : DimensionResult) (p : ℚ × ℚ)
    (hA : adv_calculate_dimensions imgH imgW x y w h refs m = some r)
    (hT : tdc_calculate_tree_dimensions tImgH tImgW tw th ttan tref tm = some p) :
    (1 ≤ r.height_m ∧ r.height_m ≤ 60 ∧ 0.3 ≤ r.width_m ∧ r.width_m ≤ 15) ∧
    (1 ≤ p.1 ∧ p.1 ≤ 60 ∧ 0.3 ≤ p.2 ∧ p.2 ≤ 15) := by
  constructor
  · simp only [adv_calculate_dimensions] at hA
    split at hA
    · exact absurd hA (by simp)
    · rw [Option.some_inj] at hA
      subst hA
      dsimp only
      have hcH := clip_mem ((adv_orientation_step
          (h / (adv_calculate_pixels_per_meter imgH imgW (some (w, h)) refs m).px_per_m)
          (w / (adv_calculate_pixels_per_meter imgH imgW (some (w, h)) refs m).px_per_m)
          m.orientation).1) 1 60 (by norm_num)
      have hcW := clip_mem ((adv_orientation_step
          (h / (adv_calculate_pixels_per_meter imgH imgW (some (w, h)) refs m).px_per_m)
          (w / (adv_calculate_pixels_per_meter imgH imgW (some (w, h)) refs m).px_per_m)
          m.orientation).2) 0.3 12 (by norm_num)
      have hrH := round2_mem_1_60 _ hcH.1 hcH.2
      have hrW := round2_mem_03_12 _ hcW.1 hcW.2
      exact ⟨hrH.1, hrH.2, hrW.1, by linarith [hrW.2]⟩
  · simp only [tdc_calculate_tree_dimensions] at hT
    split at hT
    · exact absurd hT (by simp)
    · rw [Option.some_inj] at hT
      subst hT
      dsimp only
      refine ⟨le_max_left 1 _, ?_, ?_, ?_⟩
      · exact max_le (by norm_num) (le_trans (min_le_left _ _) (by norm_num))
      · exact le_trans (by norm_num) (le_max_left 0.5 _)
      · exact max_le (by norm_num) (min_le_left _ _)

/-- C1 counterexample: on a 15-pixel-high frame with no reference object and
empty metadata the fallback scale is 1 px/m; a tree box of width 13 px gives
unclamped width 13 m, and the advanced pipeline outputs width 12.0 — the
code's clamp range is [0.3, 12.0] — whereas clamping to the claimed range
[0.3, 15.0] as the last operation would output 13. -/
theorem c1_counterexample :
    (adv_calculate_dimensions 15 10 0 0 13 30 [] emptyAdvMetadata).map
      DimensionResult.width_m = some 12 ∧
    ¬((12 : ℚ) = clip 13 0.3 15) := by
  constructor
  · have hsel : adv_calculate_pixels_per_meter 15 10 (some (13, 30)) [] emptyAdvMetadata =
        fallbackEntry 15 := by
      simp [adv_calculate_pixels_per_meter, adv_scale_candidates,
        adv_camera_geometry_methods, emptyAdvMetadata, selectBest]
    simp only [adv_calculate_dimensions, hsel]
    norm_num [fallbackEntry, adv_orientation_step, emptyAdvMetadata, clip,
      min_def, max_def, Option.map_some]
    rw [round2_eq_self 12 12 (by norm_num)]
  · norm_num [clip, min_def, max_def]

/-- Witness for C1 on a 15-pixel-high frame with a 2×3 pixel tree box and no
reference object: the advanced pipeline returns height 3 m, width 2 m and the
calculator returns (3, 2), all within the claimed ranges. -/
theorem c1_bounds_witness :
    (1 ≤ (3 : ℚ) ∧ (3 : ℚ) ≤ 60 ∧ (0.3 : ℚ) ≤ (2 : ℚ) ∧ (2 : ℚ) ≤ 15) ∧
    (1 ≤ (3 : ℚ) ∧ (3 : ℚ) ≤ 60 ∧ (0.3 : ℚ) ≤ (2 : ℚ) ∧ (2 : ℚ) ≤ 15) := by
  have hA : adv_calculate_dimensions 15 10 0 0 2 3 [] emptyAdvMetadata =
      some ⟨3, 2, "Fallback estimation", 0.4, (0, 0, 2, 3), none⟩ := by
    have hsel : adv_calculate_pixels_per_meter 15 10 (some (2, 3)) [] emptyAdvMetadata =
        fallbackEntry 15 := by
      simp [adv_calculate_pixels_per_meter, adv_scale_candidates,
        adv_camera_geometry_methods, emptyAdvMetadata, selectBest]
    simp only [adv_calculate_dimensions, hsel]
    norm_num [fallbackEntry, adv_orientation_step, emptyAdvMetadata, clip,
      min_def, max_def, DimensionResult.mk.injEq]
    refine ⟨?_, ?_, ?_⟩
    · rw [round2_eq_self 3 3 (by norm_num)]
    · rw [round2_eq_self 2 2 (by norm_num)]
    · unfold round2
      rw [show (2 / 5 : ℚ) * 100 = ((40 : ℤ) : ℚ) by norm_num, roundHalfEven_intCast]
      norm_num
  have hT : tdc_calculate_tree_dimensions 15 10 2 3 0.57 none emptyTDCMetadata =
      some (3, 2) := by
    norm_num [tdc_calculate_tree_dimensions, tdc_select_scale, tdc_orientation_step,
      tdc_calculate_focal_length_pixels, emptyTDCMetadata, min_def, max_def]
  exact c1_amended_bounds 15 10 0 0 2 3 [] emptyAdvMetadata 15 10 2 3 0.57 none
    emptyTDCMetadata ⟨3, 2, "Fallback estimation", 0.4, (0, 0, 2, 3), none⟩ (3, 2) hA hT

end TreeProject
